import Mathlib

/-!
Shallow embedding of the serialized-module schema declared in
`lib/Serialization/ModuleFormat.h`: the record/field layout catalogue,
the block and record tag enumerations, and the two helper mappings
`getStableFixity` and `getKindForTable`, together with proofs of the
schema invariants (tag distinctness, tag ranges, fixed-width fit of every
serialized enum, version gating).
-/

namespace ModuleFormat

/-- The typed field shapes a record layout may carry: fixed-width unsigned
integers (`BCFixed<w>`), variable-bit-rate integers (`BCVBR<w>`), an opaque
byte blob (`BCBlob`), and homogeneous arrays (`BCArray<t>`). -/
inductive BCFieldType : Type where
  | BCFixed (width : Nat)
  | BCVBR (width : Nat)
  | BCBlob
  | BCArray (elt : BCFieldType)
deriving DecidableEq, Repr

/-- `BCRecordLayout<ID, Fields...>`: a record layout is its integer tag
together with the ordered list of typed fields. -/
structure BCRecordLayout : Type where
  id : Nat
  fields : List BCFieldType
deriving DecidableEq, Repr

/-- Whether a natural number fits a fixed-width field of this shape,
i.e. the shape is `BCFixed<w>` and the value is below `2 ^ w`
(encoding a value that exceeds the width is a fatal caller error). -/
def BCFieldType.fitsFixed : BCFieldType → Nat → Prop
  | .BCFixed w, n => n < 2 ^ w
  | _, _ => False

instance (t : BCFieldType) (n : Nat) : Decidable (t.fitsFixed n) := by
  cases t <;> simp [BCFieldType.fitsFixed] <;> infer_instance

/-- Magic number for serialized module files. -/
def SIGNATURE : List Nat := [0xE2, 0x9C, 0xA8, 0x0E]

/-- Serialized module format major version number. -/
def VERSION_MAJOR : Nat := 1

/-- Serialized module format minor version number. -/
def VERSION_MINOR : Nat := 0

/-- `Fixnum<w>`: an unsigned integer value restricted to `w` bits. -/
def Fixnum (w : Nat) : Type := Fin (2 ^ w)

def DeclID : Type := Fixnum 31
def DeclIDField : BCFieldType := .BCFixed 31

-- TypeID must be the same as DeclID because it is stored in the same way.
def TypeID : Type := DeclID
def TypeIDField : BCFieldType := DeclIDField

def IdentifierID : Type := Fixnum 31
def IdentifierIDField : BCFieldType := .BCFixed 31

def BitOffset : Type := Fixnum 31
def BitOffsetField : BCFieldType := .BCFixed 31

-- CharOffset must be the same as BitOffset because it is stored in the
-- same way.
def CharOffset : Type := BitOffset
def CharOffsetField : BCFieldType := BitOffsetField

/-- `enum AbstractCC : uint8_t`. -/
inductive AbstractCC : Type where
  | C
  | ObjCMethod
  | Freestanding
  | Method
deriving DecidableEq, Fintype, Repr

def AbstractCC.val : AbstractCC → Nat
  | .C => 0
  | .ObjCMethod => 1
  | .Freestanding => 2
  | .Method => 3

def AbstractCCField : BCFieldType := .BCFixed 2

/-- `enum XRefKind : uint8_t`. -/
inductive XRefKind : Type where
  | SwiftValue
  | SwiftOperator
  | SwiftGenericParameter
deriving DecidableEq, Fintype, Repr

def XRefKind.val : XRefKind → Nat
  | .SwiftValue => 0
  | .SwiftOperator => 1
  | .SwiftGenericParameter => 2

def XRefKindField : BCFieldType := .BCFixed 2

/-- `enum OperatorKind : uint8_t`: the stable serialization fixities. -/
inductive OperatorKind : Type where
  | Infix
  | Prefix
  | Postfix
deriving DecidableEq, Fintype, Repr

def OperatorKind.val : OperatorKind → Nat
  | .Infix => 0
  | .Prefix => 1
  | .Postfix => 2

/-- `enum GenericRequirementKind : uint8_t`. -/
inductive GenericRequirementKind : Type where
  | Conformance
  | SameType
deriving DecidableEq, Fintype, Repr

def GenericRequirementKind.val : GenericRequirementKind → Nat
  | .Conformance => 0
  | .SameType => 1

def GenericRequirementKindField : BCFieldType := .BCFixed 1

/-- `enum Associativity : uint8_t`. -/
inductive Associativity : Type where
  | NonAssociative
  | LeftAssociative
  | RightAssociative
deriving DecidableEq, Fintype, Repr

def Associativity.val : Associativity → Nat
  | .NonAssociative => 0
  | .LeftAssociative => 1
  | .RightAssociative => 2

def AssociativityField : BCFieldType := .BCFixed 2

/-- `enum Ownership : uint8_t`. -/
inductive Ownership : Type where
  | Strong
  | Weak
  | Unowned
deriving DecidableEq, Fintype, Repr

def Ownership.val : Ownership → Nat
  | .Strong => 0
  | .Weak => 1
  | .Unowned => 2

def OwnershipField : BCFieldType := .BCFixed 2

/-- `enum DefaultArgumentKind : uint8_t`. -/
inductive DefaultArgumentKind : Type where
  | None
  | Normal
  | File
  | Line
  | Column
deriving DecidableEq, Fintype, Repr

def DefaultArgumentKind.val : DefaultArgumentKind → Nat
  | .None => 0
  | .Normal => 1
  | .File => 2
  | .Line => 3
  | .Column => 4

def DefaultArgumentField : BCFieldType := .BCFixed 3

/-- `enum LibraryKind : uint8_t`. -/
inductive LibraryKind : Type where
  | Library
  | Framework
deriving DecidableEq, Fintype, Repr

def LibraryKind.val : LibraryKind → Nat
  | .Library => 0
  | .Framework => 1

def LibraryKindField : BCFieldType := .BCFixed 1

namespace control_block

def METADATA : Nat := 1

def MetadataLayout : BCRecordLayout :=
  ⟨METADATA, [.BCFixed 16, .BCFixed 16, .BCBlob]⟩

end control_block

namespace input_block

def SOURCE_FILE : Nat := 1
def IMPORTED_MODULE : Nat := 2
def LINK_LIBRARY : Nat := 3

def SourceFileLayout : BCRecordLayout := ⟨SOURCE_FILE, [.BCBlob]⟩

def ImportedModuleLayout : BCRecordLayout :=
  ⟨IMPORTED_MODULE, [.BCFixed 1, .BCBlob]⟩

def LinkLibraryLayout : BCRecordLayout :=
  ⟨LINK_LIBRARY, [LibraryKindField, .BCBlob]⟩

end input_block

namespace decls_block

/-- `enum RecordKind : uint8_t` of the decls-and-types block. -/
inductive RecordKind : Type where
  | NAME_ALIAS_TYPE
  | GENERIC_TYPE_PARAM_TYPE
  | ASSOCIATED_TYPE_TYPE
  | DEPENDENT_MEMBER_TYPE
  | NOMINAL_TYPE
  | PAREN_TYPE
  | TUPLE_TYPE
  | TUPLE_TYPE_ELT
  | FUNCTION_TYPE
  | METATYPE_TYPE
  | LVALUE_TYPE
  | ARCHETYPE_TYPE
  | ARCHETYPE_NESTED_TYPE_NAMES
  | ARCHETYPE_NESTED_TYPES
  | PROTOCOL_COMPOSITION_TYPE
  | SUBSTITUTED_TYPE
  | BOUND_GENERIC_TYPE
  | BOUND_GENERIC_SUBSTITUTION
  | POLYMORPHIC_FUNCTION_TYPE
  | ARRAY_SLICE_TYPE
  | ARRAY_TYPE
  | REFERENCE_STORAGE_TYPE
  | UNBOUND_GENERIC_TYPE
  | OPTIONAL_TYPE
  | TYPE_ALIAS_DECL
  | GENERIC_TYPE_PARAM_DECL
  | ASSOCIATED_TYPE_DECL
  | STRUCT_DECL
  | CONSTRUCTOR_DECL
  | VAR_DECL
  | FUNC_DECL
  | PATTERN_BINDING_DECL
  | PROTOCOL_DECL
  | PREFIX_OPERATOR_DECL
  | POSTFIX_OPERATOR_DECL
  | INFIX_OPERATOR_DECL
  | CLASS_DECL
  | UNION_DECL
  | UNION_ELEMENT_DECL
  | SUBSCRIPT_DECL
  | EXTENSION_DECL
  | DESTRUCTOR_DECL
  | KNOWN_PROTOCOL
  | PAREN_PATTERN
  | TUPLE_PATTERN
  | TUPLE_PATTERN_ELT
  | NAMED_PATTERN
  | ANY_PATTERN
  | TYPED_PATTERN
  | ISA_PATTERN
  | NOMINAL_TYPE_PATTERN
  | VAR_PATTERN
  | GENERIC_PARAM_LIST
  | GENERIC_PARAM
  | GENERIC_REQUIREMENT
  | NO_CONFORMANCE
  | NORMAL_PROTOCOL_CONFORMANCE
  | SPECIALIZED_PROTOCOL_CONFORMANCE
  | INHERITED_PROTOCOL_CONFORMANCE
  | DECL_CONTEXT
  | XREF
deriving DecidableEq, Fintype, Repr

/-- The integer tag of each record kind, following the enum's explicit
initializers (`NAME_ALIAS_TYPE = 1`, `TYPE_ALIAS_DECL = 100`,
`PAREN_PATTERN = 200`, `GENERIC_PARAM_LIST = 240`, `NO_CONFORMANCE = 250`,
…, `XREF = 255`) and C++ implicit successor numbering in between. -/
def RecordKind.val : RecordKind → Nat
  | .NAME_ALIAS_TYPE => 1
  | .GENERIC_TYPE_PARAM_TYPE => 2
  | .ASSOCIATED_TYPE_TYPE => 3
  | .DEPENDENT_MEMBER_TYPE => 4
  | .NOMINAL_TYPE => 5
  | .PAREN_TYPE => 6
  | .TUPLE_TYPE => 7
  | .TUPLE_TYPE_ELT => 8
  | .FUNCTION_TYPE => 9
  | .METATYPE_TYPE => 10
  | .LVALUE_TYPE => 11
  | .ARCHETYPE_TYPE => 12
  | .ARCHETYPE_NESTED_TYPE_NAMES => 13
  | .ARCHETYPE_NESTED_TYPES => 14
  | .PROTOCOL_COMPOSITION_TYPE => 15
  | .SUBSTITUTED_TYPE => 16
  | .BOUND_GENERIC_TYPE => 17
  | .BOUND_GENERIC_SUBSTITUTION => 18
  | .POLYMORPHIC_FUNCTION_TYPE => 19
  | .ARRAY_SLICE_TYPE => 20
  | .ARRAY_TYPE => 21
  | .REFERENCE_STORAGE_TYPE => 22
  | .UNBOUND_GENERIC_TYPE => 23
  | .OPTIONAL_TYPE => 24
  | .TYPE_ALIAS_DECL => 100
  | .GENERIC_TYPE_PARAM_DECL => 101
  | .ASSOCIATED_TYPE_DECL => 102
  | .STRUCT_DECL => 103
  | .CONSTRUCTOR_DECL => 104
  | .VAR_DECL => 105
  | .FUNC_DECL => 106
  | .PATTERN_BINDING_DECL => 107
  | .PROTOCOL_DECL => 108
  | .PREFIX_OPERATOR_DECL => 109
  | .POSTFIX_OPERATOR_DECL => 110
  | .INFIX_OPERATOR_DECL => 111
  | .CLASS_DECL => 112
  | .UNION_DECL => 113
  | .UNION_ELEMENT_DECL => 114
  | .SUBSCRIPT_DECL => 115
  | .EXTENSION_DECL => 116
  | .DESTRUCTOR_DECL => 117
  | .KNOWN_PROTOCOL => 118
  | .PAREN_PATTERN => 200
  | .TUPLE_PATTERN => 201
  | .TUPLE_PATTERN_ELT => 202
  | .NAMED_PATTERN => 203
  | .ANY_PATTERN => 204
  | .TYPED_PATTERN => 205
  | .ISA_PATTERN => 206
  | .NOMINAL_TYPE_PATTERN => 207
  | .VAR_PATTERN => 208
  | .GENERIC_PARAM_LIST => 240
  | .GENERIC_PARAM => 241
  | .GENERIC_REQUIREMENT => 242
  | .NO_CONFORMANCE => 250
  | .NORMAL_PROTOCOL_CONFORMANCE => 251
  | .SPECIALIZED_PROTOCOL_CONFORMANCE => 252
  | .INHERITED_PROTOCOL_CONFORMANCE => 253
  | .DECL_CONTEXT => 254
  | .XREF => 255

/-- The type records, in enum declaration order. -/
def typeRecords : List RecordKind :=
  [.NAME_ALIAS_TYPE, .GENERIC_TYPE_PARAM_TYPE, .ASSOCIATED_TYPE_TYPE,
   .DEPENDENT_MEMBER_TYPE, .NOMINAL_TYPE, .PAREN_TYPE, .TUPLE_TYPE,
   .TUPLE_TYPE_ELT, .FUNCTION_TYPE, .METATYPE_TYPE, .LVALUE_TYPE,
   .ARCHETYPE_TYPE, .ARCHETYPE_NESTED_TYPE_NAMES, .ARCHETYPE_NESTED_TYPES,
   .PROTOCOL_COMPOSITION_TYPE, .SUBSTITUTED_TYPE, .BOUND_GENERIC_TYPE,
   .BOUND_GENERIC_SUBSTITUTION, .POLYMORPHIC_FUNCTION_TYPE,
   .ARRAY_SLICE_TYPE, .ARRAY_TYPE, .REFERENCE_STORAGE_TYPE,
   .UNBOUND_GENERIC_TYPE, .OPTIONAL_TYPE]

/-- The declaration records, in enum declaration order. -/
def declRecords : List RecordKind :=
  [.TYPE_ALIAS_DECL, .GENERIC_TYPE_PARAM_DECL, .ASSOCIATED_TYPE_DECL,
   .STRUCT_DECL, .CONSTRUCTOR_DECL, .VAR_DECL, .FUNC_DECL,
   .PATTERN_BINDING_DECL, .PROTOCOL_DECL, .PREFIX_OPERATOR_DECL,
   .POSTFIX_OPERATOR_DECL, .INFIX_OPERATOR_DECL, .CLASS_DECL, .UNION_DECL,
   .UNION_ELEMENT_DECL, .SUBSCRIPT_DECL, .EXTENSION_DECL, .DESTRUCTOR_DECL,
   .KNOWN_PROTOCOL]

/-- The pattern records, in enum declaration order. -/
def patternRecords : List RecordKind :=
  [.PAREN_PATTERN, .TUPLE_PATTERN, .TUPLE_PATTERN_ELT, .NAMED_PATTERN,
   .ANY_PATTERN, .TYPED_PATTERN, .ISA_PATTERN, .NOMINAL_TYPE_PATTERN,
   .VAR_PATTERN]

/-- The generic-machinery records, in enum declaration order. -/
def genericRecords : List RecordKind :=
  [.GENERIC_PARAM_LIST, .GENERIC_PARAM, .GENERIC_REQUIREMENT]

/-- The conformance, decl-context and cross-reference records, in enum
declaration order. -/
def miscRecords : List RecordKind :=
  [.NO_CONFORMANCE, .NORMAL_PROTOCOL_CONFORMANCE,
   .SPECIALIZED_PROTOCOL_CONFORMANCE, .INHERITED_PROTOCOL_CONFORMANCE,
   .DECL_CONTEXT, .XREF]

/-- Every record kind of the decls-and-types block, grouped by category. -/
def allRecords : List RecordKind :=
  typeRecords ++ declRecords ++ patternRecords ++ genericRecords ++
    miscRecords

def XRefLayout : BCRecordLayout :=
  ⟨RecordKind.XREF.val,
   [XRefKindField, TypeIDField, .BCFixed 1, .BCArray IdentifierIDField]⟩

end decls_block

/-- `llvm::bitc::FIRST_APPLICATION_BLOCKID`: the first block ID free for
application use in LLVM's bitstream format (the IDs below it are reserved
for the bitstream machinery). Its value, 8, comes from LLVM's
`BitCodes.h`, an external dependency of the header. -/
def FIRST_APPLICATION_BLOCKID : Nat := 8

def CONTROL_BLOCK_ID : Nat := FIRST_APPLICATION_BLOCKID
def INPUT_BLOCK_ID : Nat := CONTROL_BLOCK_ID + 1
def DECLS_AND_TYPES_BLOCK_ID : Nat := INPUT_BLOCK_ID + 1
def IDENTIFIER_DATA_BLOCK_ID : Nat := DECLS_AND_TYPES_BLOCK_ID + 1
def INDEX_BLOCK_ID : Nat := IDENTIFIER_DATA_BLOCK_ID + 1
def KNOWN_PROTOCOL_BLOCK_ID : Nat := 64
def FALL_BACK_TO_TRANSLATION_UNIT_ID : Nat := 100

/-- All seven block IDs, in enum declaration order. -/
def allBlockIDs : List Nat :=
  [CONTROL_BLOCK_ID, INPUT_BLOCK_ID, DECLS_AND_TYPES_BLOCK_ID,
   IDENTIFIER_DATA_BLOCK_ID, INDEX_BLOCK_ID, KNOWN_PROTOCOL_BLOCK_ID,
   FALL_BACK_TO_TRANSLATION_UNIT_ID]

namespace identifier_block

def IDENTIFIER_DATA : Nat := 1

def IdentifierDataLayout : BCRecordLayout := ⟨IDENTIFIER_DATA, [.BCBlob]⟩

end identifier_block

namespace index_block

/-- `enum RecordKind` of the index block. -/
inductive RecordKind : Type where
  | TYPE_OFFSETS
  | DECL_OFFSETS
  | IDENTIFIER_OFFSETS
  | TOP_LEVEL_DECLS
  | OPERATORS
  | EXTENSIONS
  | CLASS_MEMBERS
deriving DecidableEq, Fintype, Repr

/-- Tag values: `TYPE_OFFSETS = 1` and implicit successor numbering. -/
def RecordKind.val : RecordKind → Nat
  | .TYPE_OFFSETS => 1
  | .DECL_OFFSETS => 2
  | .IDENTIFIER_OFFSETS => 3
  | .TOP_LEVEL_DECLS => 4
  | .OPERATORS => 5
  | .EXTENSIONS => 6
  | .CLASS_MEMBERS => 7

/-- Every record kind of the index block, in enum declaration order. -/
def allRecords : List RecordKind :=
  [.TYPE_OFFSETS, .DECL_OFFSETS, .IDENTIFIER_OFFSETS, .TOP_LEVEL_DECLS,
   .OPERATORS, .EXTENSIONS, .CLASS_MEMBERS]

/-- `BCGenericRecordLayout`: the record ID is itself the leading field, so
the layout is just the ordered field list. -/
def OffsetsLayout : List BCFieldType :=
  [.BCFixed 3, .BCArray BitOffsetField]

def DeclListLayout : List BCFieldType :=
  [.BCFixed 3, .BCVBR 16, .BCBlob]

/-- `enum KnownProtocolKind : uint8_t`: a stable version of
`swift::KnownProtocolKind`, with `FORCE_DESERIALIZATION` implicitly 0 and
`ArrayBound = 1`. -/
inductive KnownProtocolKind : Type where
  | FORCE_DESERIALIZATION
  | ArrayBound
  | Enumerable
  | Enumerator
  | LogicValue
  | ArrayLiteralConvertible
  | CharacterLiteralConvertible
  | DictionaryLiteralConvertible
  | FloatLiteralConvertible
  | IntegerLiteralConvertible
  | StringInterpolationConvertible
  | StringLiteralConvertible
  | BuiltinCharacterLiteralConvertible
  | BuiltinFloatLiteralConvertible
  | BuiltinIntegerLiteralConvertible
  | BuiltinStringLiteralConvertible
deriving DecidableEq, Fintype, Repr

def KnownProtocolKind.val : KnownProtocolKind → Nat
  | .FORCE_DESERIALIZATION => 0
  | .ArrayBound => 1
  | .Enumerable => 2
  | .Enumerator => 3
  | .LogicValue => 4
  | .ArrayLiteralConvertible => 5
  | .CharacterLiteralConvertible => 6
  | .DictionaryLiteralConvertible => 7
  | .FloatLiteralConvertible => 8
  | .IntegerLiteralConvertible => 9
  | .StringInterpolationConvertible => 10
  | .StringLiteralConvertible => 11
  | .BuiltinCharacterLiteralConvertible => 12
  | .BuiltinFloatLiteralConvertible => 13
  | .BuiltinIntegerLiteralConvertible => 14
  | .BuiltinStringLiteralConvertible => 15

def KnownProtocolLayout : List BCFieldType :=
  [.BCFixed 4, .BCArray DeclIDField]

end index_block

/-- Modelled from the spec: `swift::DeclKind` is declared in
`swift/AST/Decl.h`, which is not under `src/`; this header only consumes
it. The constructors follow the declaration kinds the spec's taxonomy
enumerates (type alias, struct, class, union, protocol, function,
variable, constructor, destructor, subscript, extension, pattern-binding,
the three operator declarations) plus the generic-parameter,
associated-type and union-element declaration kinds named by the
decls-and-types record tags, and the import and top-level-code kinds the
AST is known to carry. Only constructor identity matters to the functions
below; the enum's numeric values are never serialized. -/
inductive DeclKind : Type where
  | Import
  | Extension
  | PatternBinding
  | TopLevelCode
  | InfixOperator
  | PrefixOperator
  | PostfixOperator
  | TypeAlias
  | GenericTypeParam
  | AssociatedType
  | Union
  | Struct
  | Class
  | Protocol
  | Var
  | Func
  | UnionElement
  | Subscript
  | Constructor
  | Destructor
deriving DecidableEq, Fintype, Repr

/-- `getStableFixity`: translates an operator `DeclKind` to a
serialization fixity; the `llvm_unreachable("unknown operator fixity")`
default branch is modelled as `none`. -/
def getStableFixity : DeclKind → Option OperatorKind
  | .PrefixOperator => some .Prefix
  | .PostfixOperator => some .Postfix
  | .InfixOperator => some .Infix
  | _ => none

/-- `getKindForTable`: the encoding kind for a decl as stored in a hash
table; the `llvm_unreachable("cannot store this kind of decl in a hash
table")` default branch is modelled as `none`. The source consults the
decl only through `D->getKind()`, so the function is taken on `DeclKind`
directly. -/
def getKindForTable : DeclKind → Option decls_block.RecordKind
  | .TypeAlias => some .TYPE_ALIAS_DECL
  | .Union => some .UNION_DECL
  | .Struct => some .STRUCT_DECL
  | .Class => some .CLASS_DECL
  | .Protocol => some .PROTOCOL_DECL
  | .Func => some .FUNC_DECL
  | .Var => some .VAR_DECL
  | .Subscript => some .SUBSCRIPT_DECL
  | .Constructor => some .CONSTRUCTOR_DECL
  | .Destructor => some .DESTRUCTOR_DECL
  | _ => none

/-- The reader-side error taxonomy relevant to the control block. -/
inductive ModuleError : Type where
  | FormatVersionError
deriving DecidableEq, Repr

/-- A decoded control-block METADATA record: major version, minor
version, and the miscellaneous version-information blob. -/
structure Metadata : Type where
  major : Nat
  minor : Nat
  versionInfo : List Nat
deriving DecidableEq, Repr

/-- Modelled from the spec: the reader (the serialized-module loader) is
not under `src/`; only this schema header is. Per the spec, the reader
validates the control block before committing to loading the module:
a major version different from the reader's `VERSION_MAJOR` is rejected
with `FormatVersionError` before any record of the body is decoded, and
minor-version differences are tolerated. The body records are returned
untouched to model that record decoding happens only after the gate. -/
def readModule (md : Metadata) (body : List (Nat × List Nat)) :
    Except ModuleError (List (Nat × List Nat)) :=
  if md.major = VERSION_MAJOR then .ok body
  else .error .FormatVersionError

end ModuleFormat

open ModuleFormat

/-- C1: All record tags of the decls-and-types block are pairwise
distinct and each fits the enum's `uint8_t` underlying type; the type
records occupy exactly 1 through 24, the declaration records 100 through
118, the pattern records 200 through 208, the generic-machinery records
240 through 242, and the conformance, decl-context and cross-reference
records 250 through 255, with `XREF = 255` the maximum tag. -/
theorem C1_record_tags_distinct_and_ranged :
    (∀ k : decls_block.RecordKind, k ∈ decls_block.allRecords)
    ∧ (decls_block.allRecords.map decls_block.RecordKind.val).Nodup
    ∧ (∀ k : decls_block.RecordKind, k.val < 2 ^ 8)
    ∧ decls_block.typeRecords.map decls_block.RecordKind.val =
        List.range' 1 24
    ∧ decls_block.declRecords.map decls_block.RecordKind.val =
        List.range' 100 19
    ∧ decls_block.patternRecords.map decls_block.RecordKind.val =
        List.range' 200 9
    ∧ decls_block.genericRecords.map decls_block.RecordKind.val =
        List.range' 240 3
    ∧ decls_block.miscRecords.map decls_block.RecordKind.val =
        List.range' 250 6
    ∧ decls_block.RecordKind.XREF.val = 255
    ∧ (∀ k : decls_block.RecordKind,
        k.val ≤ decls_block.RecordKind.XREF.val) := by
  decide

/-- C2: `DeclID`, `TypeID` and `IdentifierID` are 31-bit unsigned
handles whose record fields are `BCFixed<31>`; `TypeID` is a type alias
of `DeclID` (the very same representation), and `BitOffset` with its
alias `CharOffset` is likewise a 31-bit unsigned value. -/
theorem C2_id_widths :
    DeclID = Fixnum 31 ∧ DeclIDField = .BCFixed 31
    ∧ TypeID = DeclID ∧ TypeIDField = DeclIDField
    ∧ IdentifierID = Fixnum 31 ∧ IdentifierIDField = .BCFixed 31
    ∧ BitOffset = Fixnum 31 ∧ BitOffsetField = .BCFixed 31
    ∧ CharOffset = BitOffset ∧ CharOffsetField = BitOffsetField
    ∧ Fixnum 31 = Fin (2 ^ 31) :=
  ⟨rfl, rfl, rfl, rfl, rfl, rfl, rfl, rfl, rfl, rfl, rfl⟩

/-- C3: The container header is the 4-byte magic signature
`0xE2 0x9C 0xA8 0x0E` followed by a control-block METADATA record whose
fields are, in order, a 16-bit major version, a 16-bit minor version and
a trailing blob of miscellaneous version information; the current format
version is major 1, minor 0. -/
theorem C3_header_layout :
    SIGNATURE = [0xE2, 0x9C, 0xA8, 0x0E] ∧ SIGNATURE.length = 4
    ∧ control_block.MetadataLayout.id = control_block.METADATA
    ∧ control_block.MetadataLayout.fields =
        [.BCFixed 16, .BCFixed 16, .BCBlob]
    ∧ VERSION_MAJOR = 1 ∧ VERSION_MINOR = 0 := by
  decide

/-- C4: An XREF record carries exactly a 2-bit reference-kind
discriminant whose three legal values are `SwiftValue = 0`,
`SwiftOperator = 1` and `SwiftGenericParameter = 2`, one TypeID field
(type if value, operator kind if operator, index if generic parameter),
a 1-bit within-extension flag, and an array of identifier IDs (optional
extension module name, base module name, access path). -/
theorem C4_xref_layout :
    decls_block.XRefLayout.id = decls_block.RecordKind.XREF.val
    ∧ decls_block.XRefLayout.fields =
        [XRefKindField, TypeIDField, .BCFixed 1,
         .BCArray IdentifierIDField]
    ∧ XRefKindField = .BCFixed 2
    ∧ XRefKind.SwiftValue.val = 0 ∧ XRefKind.SwiftOperator.val = 1
    ∧ XRefKind.SwiftGenericParameter.val = 2
    ∧ (∀ k : XRefKind, k.val ≤ 2) := by
  decide

/-- C5: Every serialized enum fits its fixed-width field: `AbstractCC`
(max 3) fits `BCFixed<2>`, `XRefKind` (max 2) fits `BCFixed<2>`,
`GenericRequirementKind` (max 1) fits `BCFixed<1>`, `Associativity`
(max 2) fits `BCFixed<2>`, `Ownership` (max 2) fits `BCFixed<2>`,
`DefaultArgumentKind` (max 4) fits `BCFixed<3>`, `LibraryKind` (max 1)
fits `BCFixed<1>`, `KnownProtocolKind` (max 15) exactly fits the
`BCFixed<4>` field of `KnownProtocolLayout`, and every `OperatorKind`
value is representable in a TypeID field, as the `static_assert`
requires. -/
theorem C5_enums_fit_fields :
    AbstractCCField = .BCFixed 2
    ∧ (∀ c : AbstractCC, AbstractCCField.fitsFixed c.val)
    ∧ AbstractCC.Method.val = 3
    ∧ XRefKindField = .BCFixed 2
    ∧ (∀ k : XRefKind, XRefKindField.fitsFixed k.val)
    ∧ XRefKind.SwiftGenericParameter.val = 2
    ∧ GenericRequirementKindField = .BCFixed 1
    ∧ (∀ r : GenericRequirementKind,
        GenericRequirementKindField.fitsFixed r.val)
    ∧ GenericRequirementKind.SameType.val = 1
    ∧ AssociativityField = .BCFixed 2
    ∧ (∀ a : Associativity, AssociativityField.fitsFixed a.val)
    ∧ Associativity.RightAssociative.val = 2
    ∧ OwnershipField = .BCFixed 2
    ∧ (∀ o : Ownership, OwnershipField.fitsFixed o.val)
    ∧ Ownership.Unowned.val = 2
    ∧ DefaultArgumentField = .BCFixed 3
    ∧ (∀ d : DefaultArgumentKind, DefaultArgumentField.fitsFixed d.val)
    ∧ DefaultArgumentKind.Column.val = 4
    ∧ LibraryKindField = .BCFixed 1
    ∧ (∀ l : LibraryKind, LibraryKindField.fitsFixed l.val)
    ∧ LibraryKind.Framework.val = 1
    ∧ index_block.KnownProtocolLayout.head? = some (.BCFixed 4)
    ∧ (∀ p : index_block.KnownProtocolKind,
        BCFieldType.fitsFixed (.BCFixed 4) p.val)
    ∧ index_block.KnownProtocolKind.BuiltinStringLiteralConvertible.val =
        2 ^ 4 - 1
    ∧ (∀ k : OperatorKind, TypeIDField.fitsFixed k.val) := by
  decide

/-- C6: The index block has exactly seven record kinds — the three
offset tables `TYPE_OFFSETS = 1`, `DECL_OFFSETS = 2`,
`IDENTIFIER_OFFSETS = 3` and the four name-lookup tables
`TOP_LEVEL_DECLS = 4`, `OPERATORS = 5`, `EXTENSIONS = 6`,
`CLASS_MEMBERS = 7` — and every tag fits the 3-bit record-ID field
shared by `OffsetsLayout` and `DeclListLayout`, with `CLASS_MEMBERS = 7`
the exact maximum of `BCFixed<3>`. -/
theorem C6_index_block_taxonomy :
    (∀ k : index_block.RecordKind, k ∈ index_block.allRecords)
    ∧ index_block.allRecords.map index_block.RecordKind.val =
        List.range' 1 7
    ∧ index_block.OffsetsLayout.head? = some (.BCFixed 3)
    ∧ index_block.DeclListLayout.head? = some (.BCFixed 3)
    ∧ (∀ k : index_block.RecordKind,
        BCFieldType.fitsFixed (.BCFixed 3) k.val)
    ∧ index_block.RecordKind.CLASS_MEMBERS.val = 2 ^ 3 - 1 := by
  decide

/-- C7: The seven block IDs are pairwise distinct; the control, input,
decls-and-types, identifier-data and index block IDs are consecutive
starting at LLVM's first application block ID, the known-protocol block
ID is 64, and the fall-back-to-translation-unit marker block ID is 100
and differs from every other block ID. -/
theorem C7_block_ids_distinct :
    allBlockIDs.Nodup
    ∧ CONTROL_BLOCK_ID = FIRST_APPLICATION_BLOCKID
    ∧ INPUT_BLOCK_ID = CONTROL_BLOCK_ID + 1
    ∧ DECLS_AND_TYPES_BLOCK_ID = INPUT_BLOCK_ID + 1
    ∧ IDENTIFIER_DATA_BLOCK_ID = DECLS_AND_TYPES_BLOCK_ID + 1
    ∧ INDEX_BLOCK_ID = IDENTIFIER_DATA_BLOCK_ID + 1
    ∧ KNOWN_PROTOCOL_BLOCK_ID = 64
    ∧ FALL_BACK_TO_TRANSLATION_UNIT_ID = 100
    ∧ FALL_BACK_TO_TRANSLATION_UNIT_ID ∉
        [CONTROL_BLOCK_ID, INPUT_BLOCK_ID, DECLS_AND_TYPES_BLOCK_ID,
         IDENTIFIER_DATA_BLOCK_ID, INDEX_BLOCK_ID,
         KNOWN_PROTOCOL_BLOCK_ID] := by
  decide

/-- C8: A reader whose major version constant differs from the major
version recorded in the container's control-block metadata rejects the
file with `FormatVersionError` before any record of the body is decoded
(the result is the error for every body whatsoever), while a container
differing only in minor version is tolerated and loads. -/
theorem C8_version_gate (md : Metadata) (body : List (Nat × List Nat)) :
    (md.major ≠ VERSION_MAJOR →
      readModule md body = .error .FormatVersionError)
    ∧ (md.major = VERSION_MAJOR → readModule md body = .ok body) := by
  constructor
  · intro h
    simp [readModule, h]
  · intro h
    simp [readModule, h]

/-- C8 witness: a container with major version 2 is rejected regardless
of its body, and a container with major version 1 but minor version 7 is
loaded. -/
theorem C8_version_gate_witness :
    readModule ⟨2, 0, []⟩ [(1, [5])] = .error .FormatVersionError
    ∧ readModule ⟨1, 7, [3]⟩ [(1, [5])] = .ok [(1, [5])] :=
  ⟨(C8_version_gate ⟨2, 0, []⟩ [(1, [5])]).1 (by decide),
   (C8_version_gate ⟨1, 7, [3]⟩ [(1, [5])]).2 rfl⟩

/-- C9: `getStableFixity` maps the three operator declaration kinds
injectively to the stable fixities — InfixOperator to Infix (0),
PrefixOperator to Prefix (1), PostfixOperator to Postfix (2) — it
succeeds exactly on those three kinds, and on every other declaration
kind the unreachable default branch (modelled as `none`) is the only
path. -/
theorem C9_stable_fixity :
    getStableFixity .InfixOperator = some .Infix
    ∧ getStableFixity .PrefixOperator = some .Prefix
    ∧ getStableFixity .PostfixOperator = some .Postfix
    ∧ OperatorKind.Infix.val = 0 ∧ OperatorKind.Prefix.val = 1
    ∧ OperatorKind.Postfix.val = 2
    ∧ (∀ k : DeclKind, (getStableFixity k).isSome ↔
        (k = .InfixOperator ∨ k = .PrefixOperator ∨
          k = .PostfixOperator)) := by
  decide

/-- C10: `getKindForTable` is defined on exactly ten declaration kinds,
mapping TypeAlias, Union, Struct, Class, Protocol, Func, Var, Subscript,
Constructor and Destructor to the matching decls-block record tags; every
other declaration kind — in particular the operator and extension
declaration kinds — falls into the unreachable default branch (modelled
as `none`). -/
theorem C10_kind_for_table :
    getKindForTable .TypeAlias = some .TYPE_ALIAS_DECL
    ∧ getKindForTable .Union = some .UNION_DECL
    ∧ getKindForTable .Struct = some .STRUCT_DECL
    ∧ getKindForTable .Class = some .CLASS_DECL
    ∧ getKindForTable .Protocol = some .PROTOCOL_DECL
    ∧ getKindForTable .Func = some .FUNC_DECL
    ∧ getKindForTable .Var = some .VAR_DECL
    ∧ getKindForTable .Subscript = some .SUBSCRIPT_DECL
    ∧ getKindForTable .Constructor = some .CONSTRUCTOR_DECL
    ∧ getKindForTable .Destructor = some .DESTRUCTOR_DECL
    ∧ (∀ k : DeclKind, (getKindForTable k).isSome ↔
        k ∈ ([.TypeAlias, .Union, .Struct, .Class, .Protocol, .Func,
              .Var, .Subscript, .Constructor, .Destructor] :
              List DeclKind))
    ∧ getKindForTable .InfixOperator = none
    ∧ getKindForTable .PrefixOperator = none
    ∧ getKindForTable .PostfixOperator = none
    ∧ getKindForTable .Extension = none := by
  decide
